import Mathlib

/-!
Verification development for the AROSHIELD medicine-chatbot
query-understanding and context-assembly pipeline
(CHATBOT/medicine_chatbot-master/chat_logic.py).

The Python source is shallowly embedded below.  External collaborators
(the Ollama generator, the sentence-transformer embedder, the Chroma
passage index, and the MongoDB registries) are abstracted as fields of
an environment record: each call site that consults a collaborator
reads the corresponding abstract function or pre-recorded result.
All pipeline-internal control flow, string construction and session
bookkeeping is translated faithfully from the source.
-/

namespace AroShield

/-! ## Python-style string primitives

Python substring search (str.find, the in operator) and the word
boundary semantics of the re module, modelled over character lists. -/

/-- Pythonic rendering of an optional string inside an f-string:
a missing value prints as the text None. -/
def pyStr : Option String → String
  | none => "None"
  | some s => s

/-- The apostrophe character, used in literal response texts. -/
def sq : String := String.singleton (Char.ofNat 39)

/-- Python str.lower, character by character over the data list. -/
def pyLower (s : String) : String := String.mk (s.data.map Char.toLower)

/-- Python str.upper, character by character over the data list. -/
def pyUpper (s : String) : String := String.mk (s.data.map Char.toUpper)

/-- Python str.strip: drop leading and trailing whitespace. -/
def pyTrim (s : String) : String :=
  String.mk (((s.data.dropWhile Char.isWhitespace).reverse.dropWhile Char.isWhitespace).reverse)

/-- First index at or after position i where the needle is a prefix of
the haystack suffix; mirrors Python str.find (which returns 0 for an
empty needle). -/
def firstOccAux (needle : List Char) : List Char → Nat → Option Nat
  | [], i => if needle.isEmpty then some i else none
  | h :: t, i =>
    if needle.isPrefixOf (h :: t) then some i else firstOccAux needle t (i + 1)

/-- Python hay.find(pat), as an Option Nat (none stands for -1). -/
def strFind (hay pat : String) : Option Nat :=
  firstOccAux pat.data hay.data 0

/-- Python pat in hay substring test. -/
def containsSubstr (hay pat : String) : Bool :=
  (strFind hay pat).isSome

/-- Word characters for the regex word boundary: letters, digits, underscore. -/
def isWordChar (c : Char) : Bool :=
  c.isAlphanum || c == Char.ofNat 95

/-- Boundary test for the character adjacent to a candidate match. -/
def boundaryOk : Option Char → Bool
  | none => true
  | some c => !isWordChar c

/-- Does the word w match at the current position (prev is the character
just before the position), with word boundaries on both sides? -/
def matchesWordAt (w : List Char) (prev : Option Char) (hay : List Char) : Bool :=
  boundaryOk prev && w.isPrefixOf hay && boundaryOk (hay.drop w.length).head?

/-- Scan for a whole-word occurrence of w, tracking the previous character. -/
def wordSearchAux (w : List Char) : Option Char → List Char → Bool
  | prev, [] => matchesWordAt w prev []
  | prev, h :: t => matchesWordAt w prev (h :: t) || wordSearchAux w (some h) t

/-- Python re.search of a single literal word with boundaries on both sides. -/
def hasWord (hay w : String) : Bool :=
  wordSearchAux w.data none hay.data

/-- Python re.search of a word-bounded alternation of literal words. -/
def hasAnyWord (hay : String) (ws : List String) : Bool :=
  ws.any (hasWord hay)

/-! ## Data model -/

/-- One entry of the drug_interactions array of a registry document.
Option models a possibly missing dictionary key. -/
structure InteractionRecord where
  drugbank_id : Option String
  description : Option String
deriving DecidableEq, Repr, Inhabited

/-- A drug document fetched from the registry (dictionary keys the
pipeline reads; Option models a missing key). -/
structure DrugRecord where
  drugbank_id : Option String
  name : Option String
  drug_interactions : List InteractionRecord
deriving DecidableEq, Repr, Inhabited

/-- A retrieved passage: page content plus the optional id metadata field. -/
structure Doc where
  pageContent : String
  metaId : Option String
deriving DecidableEq, Repr, Inhabited

/-- A citation triple matched in the sanitized history string by the
fallback regex: marker kind (Primary Drug or Secondary Drug), drug
name, and DrugBank id. -/
structure Citation where
  ctype : String
  cname : String
  cid : String
deriving DecidableEq, Repr, Inhabited

/-- User profile data the pipeline reads; prescriptions entries carry an
optional drug name (none models a dictionary entry without a drug key).
A value of none for the whole profile models the empty dictionary. -/
structure UserData where
  prescriptions : List (Option String)
deriving DecidableEq, Repr, Inhabited

/-- Intent labels produced by the classification stage. -/
inductive RagIntent where
  | INTERACTION
  | GENERAL_INFO
  | OTHER
deriving DecidableEq, Repr, Inhabited

/-- One saved conversation turn: the stored input and output strings. -/
abbrev Turn := String × String

/-- The session store: user id to list of saved turns, in save order. -/
abbrev Sessions := List (String × List Turn)

/-- Turns currently stored for a user, none when no session exists. -/
def sessionTurns : Sessions → String → Option (List Turn)
  | [], _ => none
  | p :: rest, uid => if p.1 = uid then some p.2 else sessionTurns rest uid

/-- get_chat_memory: create an empty session for the user when absent. -/
def ensureSession (ss : Sessions) (uid : String) : Sessions :=
  if (sessionTurns ss uid).isSome then ss else ss ++ [(uid, [])]

/-- save_context: append one turn to the session entry of the user. -/
def saveTurn : Sessions → String → Turn → Sessions
  | [], _, _ => []
  | p :: rest, uid, t =>
    (if p.1 = uid then (p.1, p.2 ++ [t]) else p) :: saveTurn rest uid t

/-- reset_chat_history: drop the session entry of the user. -/
def clearSession : Sessions → String → Sessions
  | [], _ => []
  | p :: rest, uid =>
    if p.1 = uid then clearSession rest uid else p :: clearSession rest uid

/-! ## Entity resolution with history fallback
(_extract_drugs_and_check_history, lines 351 to 394) -/

/-- History sanitization before the citation regex runs: strip asterisks,
fold line breaks to spaces, and remove AI and User prefixes. -/
def sanitizeHistory (h : String) : String :=
  ((((h.replace "*" "").replace "\n" " ").replace "\r" " ").replace "AI: " "").replace "User: " ""

/-- The backward scan over citation matches: processes matches in reversed
order, checks the id against the already collected ids, fetches the
document by id, prepends it, and stops once two documents are collected.
Follows the Python loop with its acc list and break. -/
def historyFallbackGo (findById : String → Option DrugRecord) :
    List Citation → List DrugRecord → List String → List DrugRecord
  | [], acc, _ => acc
  | c :: rest, acc, seen =>
    if seen.contains c.cid then historyFallbackGo findById rest acc seen
    else
      match findById c.cid with
      | some doc =>
        let accNext := doc :: acc
        if accNext.length ≥ 2 then accNext
        else historyFallbackGo findById rest accNext (c.cid :: seen)
      | none => historyFallbackGo findById rest acc seen

/-- History fallback: latest two distinct resolvable cited drug ids,
returned in original citation order. -/
def historyFallback (citations : List Citation) (findById : String → Option DrugRecord) :
    List DrugRecord :=
  historyFallbackGo findById citations.reverse [] []

/-- Modelled from the spec words for comparison with the source scan:
all distinct resolvable cited documents in reverse citation order,
without the two-element cap. -/
def specScan (findById : String → Option DrugRecord) :
    List Citation → List String → List DrugRecord
  | [], _ => []
  | c :: rest, seen =>
    if seen.contains c.cid then specScan findById rest seen
    else
      match findById c.cid with
      | some doc => doc :: specScan findById rest (c.cid :: seen)
      | none => specScan findById rest seen

/-- Spec-side description of the fallback result: scan the citations from
the end, collect up to two distinct resolvable ids, and restore citation
order. -/
def lastCitedDrugs (citations : List Citation) (findById : String → Option DrugRecord) :
    List DrugRecord :=
  ((specScan findById citations.reverse []).take 2).reverse

/-- _extract_drugs_and_check_history.  The NER extraction result for the
current question (mongoMatches), the vague follow-up regex result, and
the citation matches found in the sanitized history are supplied by the
caller; external regex and generator calls are abstracted there. -/
def extract_drugs_and_check_history (mongoMatches : List DrugRecord) (vague : Bool)
    (citations : List Citation) (findById : String → Option DrugRecord) :
    List DrugRecord :=
  if mongoMatches.isEmpty || (vague && mongoMatches.length < 2) then
    let hm := historyFallback citations findById
    if hm.isEmpty then mongoMatches else hm
  else mongoMatches

/-! ## Structured interaction check (_check_interactions, lines 397 to 446) -/

/-- The missing-description fallback text. -/
def noDescriptionMsg : String :=
  "NO DESCRIPTION: Interaction is marked but details are missing."

/-- The aggressive warning block built for a direct structured interaction. -/
def interaction_warning (primaryName primaryId secondaryName secondaryId description : String) :
    String :=
  "!!! MANDATORY INTERACTION WARNING !!!\n" ++
  "--- CRITICAL FINDING: DIRECT DRUG INTERACTION IDENTIFIED ---\n" ++
  "*** PRIMARY INTERACTOR ***: **" ++ primaryName ++ "** (ID: " ++ primaryId ++ ")\n" ++
  "*** SECONDARY INTERACTOR ***: **" ++ secondaryName ++ "** (ID: " ++ secondaryId ++ ")\n" ++
  "*** CLINICAL SIGNIFICANCE & DETAILS ***:\n" ++
  description ++ "\n" ++
  "--- END CRITICAL FINDING ---\n\n"

/-- The source tag recorded for a structured interaction finding. -/
def interactionSourceTag (primaryName secondaryName : String) : String :=
  "Structured Interaction Data for " ++ primaryName ++ " vs " ++ secondaryName

/-- Loop of _check_interactions over the secondary candidates: the first
candidate whose id equals the id of some entry of the primary
drug_interactions list produces an immediate return with the warning
context; otherwise the accumulator keeps the first candidate seen. -/
def checkInteractionsGo (primary : DrugRecord) :
    List DrugRecord → Option DrugRecord → String × List String × Option DrugRecord
  | [], acc => ("", [], acc)
  | sd :: rest, acc =>
    match primary.drug_interactions.find? (fun i => i.drugbank_id == sd.drugbank_id) with
    | some inter =>
      let description := inter.description.getD noDescriptionMsg
      (interaction_warning (primary.name.getD "N/A") (primary.drugbank_id.getD "N/A")
        (sd.name.getD "N/A") (pyStr sd.drugbank_id) description,
       [interactionSourceTag (primary.name.getD "N/A") (sd.name.getD "N/A")],
       some sd)
    | none => checkInteractionsGo primary rest (if acc.isSome then acc else some sd)

/-- _check_interactions: returns the direct interaction context, the
source tags, and the secondary drug retained for passage retrieval. -/
def check_interactions (primary : DrugRecord) (secondaries : List DrugRecord) :
    String × List String × Option DrugRecord :=
  checkInteractionsGo primary secondaries none

/-! ## Secondary candidate assembly (_get_secondary_drugs_for_check,
lines 448 to 483) -/

/-- Prescription part of the secondary candidate assembly: resolve each
prescription name through the registry, skip falsy names, unresolvable
names, falsy ids and already checked ids. -/
def prescriptionSecondaries (findByName : String → Option DrugRecord) :
    List (Option String) → List (Option String) → List DrugRecord
  | [], _ => []
  | pname :: rest, checked =>
    match pname with
    | some s =>
      if s ≠ "" then
        match findByName s with
        | some doc =>
          match doc.drugbank_id with
          | some pid =>
            if pid ≠ "" && !(checked.contains (some pid)) then
              doc :: prescriptionSecondaries findByName rest (some pid :: checked)
            else prescriptionSecondaries findByName rest checked
          | none => prescriptionSecondaries findByName rest checked
        | none => prescriptionSecondaries findByName rest checked
      else prescriptionSecondaries findByName rest checked
    | none => prescriptionSecondaries findByName rest checked

/-- _get_secondary_drugs_for_check: the second query drug (if any, with a
truthy unchecked id) followed by the resolvable prescription drugs. -/
def get_secondary_drugs_for_check (queryMatches : List DrugRecord) (primary : DrugRecord)
    (userData : Option UserData) (findByName : String → Option DrugRecord) :
    List DrugRecord :=
  let checked0 : List (Option String) := [primary.drugbank_id]
  let fromQuery : List DrugRecord × List (Option String) :=
    match queryMatches with
    | _ :: sec :: _ =>
      match sec.drugbank_id with
      | some sid =>
        if sid ≠ "" && !(checked0.contains (some sid)) then
          ([sec], some sid :: checked0)
        else ([], checked0)
      | none => ([], checked0)
    | _ => ([], checked0)
  let fromRx : List DrugRecord :=
    match userData with
    | none => []
    | some ud => prescriptionSecondaries findByName ud.prescriptions fromQuery.2
  fromQuery.1 ++ fromRx

/-! ## Intent classification (_classify_rag_intent, lines 504 to 535) -/

/-- The fixed interaction keyword fast path list. -/
def interaction_keywords : List String :=
  ["interact", "combine", "take with", "together", "contraindicated", "safe with"]

/-- _classify_rag_intent.  The generator call for the classification
prompt is abstracted as llmResp: ok carries the returned text, error
stands for a raised exception. -/
def classify_rag_intent (question : String) (llmResp : Except Unit String) : RagIntent :=
  if interaction_keywords.any (fun k => containsSubstr (pyLower question) k) then
    RagIntent.INTERACTION
  else
    match llmResp with
    | Except.error _ => RagIntent.GENERAL_INFO
    | Except.ok resp =>
      let r := pyUpper (pyTrim resp)
      if containsSubstr r "INTERACTION" then RagIntent.INTERACTION
      else if containsSubstr r "GENERAL_INFO" then RagIntent.GENERAL_INFO
      else RagIntent.OTHER

/-- The orchestrator decision for retrieval filtering (step 7 of
handle_chat_query, lines 654 to 663): full context whenever a direct
structured interaction was found or more than one drug is in play,
otherwise classify and exclude interaction passages exactly for
GENERAL_INFO. -/
def decide_rag_intent (directCtx : String) (numMatches : Nat) (question : String)
    (classifyResp : Except Unit String) : RagIntent × Bool :=
  if !(directCtx == "") || numMatches > 1 then
    (RagIntent.INTERACTION, false)
  else
    let i := classify_rag_intent question classifyResp
    (i, decide (i = RagIntent.GENERAL_INFO))

/-! ## Passage retrieval context (_get_drug_context_rag_docs,
lines 536 to 564, and the retrieval loop of step 8B) -/

/-- _get_drug_context_rag_docs: retrieval for a single drug.  The
embedder and passage index are abstracted as the retrieve function from
drug id and exclusion flag to the retrieved documents for the current
question; a falsy drug id skips retrieval. -/
def get_drug_context_rag_docs (retrieve : String → Bool → List Doc) (d : DrugRecord)
    (excludeInteractions : Bool) : List Doc × String :=
  match d.drugbank_id with
  | none => ([], "")
  | some did =>
    if did == "" then ([], "")
    else
      let docs := retrieve did excludeInteractions
      if docs.isEmpty then ([], "")
      else
        (docs,
         "\n--- DRUG CONTEXT: " ++ d.name.getD "N/A" ++ " (ID: " ++ did ++ ") ---\n" ++
         String.intercalate "\n---\n" (docs.map (fun doc => doc.pageContent)) ++
         "\n--- END DRUG CONTEXT: " ++ d.name.getD "N/A" ++ " ---\n")

/-- Step 8B of handle_chat_query: run retrieval for every target with a
truthy, not yet seen id, concatenating contexts, collecting source ids
and counting retrieved documents. -/
def runRagTargetsGo (retrieve : String → Bool → List Doc) (excludeInteractions : Bool) :
    List DrugRecord → List String → String × List String × Nat
  | [], _ => ("", [], 0)
  | d :: rest, seen =>
    match d.drugbank_id with
    | some did =>
      if did ≠ "" && !(seen.contains did) then
        let r := get_drug_context_rag_docs retrieve d excludeInteractions
        let tail := runRagTargetsGo retrieve excludeInteractions rest (did :: seen)
        (r.2 ++ tail.1,
         r.1.map (fun doc => doc.metaId.getD (pyStr d.name ++ " RAG: " ++ did)) ++ tail.2.1,
         r.1.length + tail.2.2)
      else runRagTargetsGo retrieve excludeInteractions rest seen
    | none => runRagTargetsGo retrieve excludeInteractions rest seen

/-- Retrieval loop entry point with an empty seen set. -/
def run_rag_targets (retrieve : String → Bool → List Doc) (excludeInteractions : Bool)
    (targets : List DrugRecord) : String × List String × Nat :=
  runRagTargetsGo retrieve excludeInteractions targets []

/-! ## Primary and secondary reordering (handle_chat_query, lines 627 to 640) -/

/-- Reorder the first two resolved drugs when a take or interaction
keyword is present and the second name occurs in the question strictly
before the first name (or the first name is absent while the second is
present), by case-insensitive substring position. -/
def reorder_matches (question : String) (ms : List DrugRecord) : List DrugRecord :=
  match ms with
  | m0 :: m1 :: rest =>
    if containsSubstr (pyLower question) "take" || containsSubstr (pyLower question) "interaction" then
      let name0 := pyLower (m0.name.getD "")
      let name1 := pyLower (m1.name.getD "")
      let ql := pyLower question
      match strFind ql name1 with
      | some i1 =>
        match strFind ql name0 with
        | none => m1 :: m0 :: rest
        | some i0 => if i1 < i0 then m1 :: m0 :: rest else m0 :: m1 :: rest
      | none => m0 :: m1 :: rest
    else m0 :: m1 :: rest
  | other => other

/-- Spec-side rendering of the reorder trigger: the first occurrence of
the second name precedes the first occurrence of the first name, where
an absent second name never triggers and an absent first name always
counts as preceded. -/
def firstOccursBefore (o1 o0 : Option Nat) : Bool :=
  match o1, o0 with
  | some i1, some i0 => i1 < i0
  | some _, none => true
  | none, _ => false

/-! ## Orchestrator (handle_chat_query, lines 567 to 746) -/

/-- Profile intercept keyword alternation (line 592). -/
def profile_intercept_keywords : List String :=
  ["prescriptions", "allergies", "history", "details", "profile", "weight",
   "height", "gender", "age"]

/-- Fixed response for failed component initialization. -/
def unavailableMsg : String :=
  "Chat system is currently unavailable due to failed initialization of LLM/DB components. Please check server logs."

/-- Fixed reset confirmation. -/
def resetMsg : String :=
  "Chat history has been successfully reset. You can now start a new inquiry."

/-- Fixed response for a generator failure on the profile path. -/
def profileErrMsg : String :=
  "An error occurred while retrieving your profile details. Please try again."

/-- Fixed response for a generator failure on the general chat path. -/
def generalErrMsg : String :=
  "An error occurred during general chat processing. Please try again."

/-- Fixed response for a generator failure on the RAG answer path. -/
def ragErrMsg : String :=
  "An error occurred during the knowledge retrieval process. Please try again."

/-- Response when the primary drug record has no truthy DrugBank id. -/
def noIdMsg (primaryName : String) : String :=
  "Found drug **" ++ primaryName ++ "**, but it" ++ sq ++
  "s missing a DrugBank ID for vector retrieval. I cannot provide a specific answer based on this information."

/-- Response when neither a structured finding nor passages were produced. -/
def noInfoMsg (primaryName : String) : String :=
  "Found drug **" ++ primaryName ++ "**, but I couldn" ++ sq ++
  "t find any relevant information in the knowledge base. I cannot provide a specific answer based on the drug information available in my database, but I strongly recommend consulting a healthcare professional."

/-- Insertion into a sorted list of strings. -/
def insertSorted (s : String) : List String → List String
  | [] => [s]
  | x :: xs => if s ≤ x then s :: x :: xs else x :: insertSorted s xs

/-- Ascending sort of a list of strings, modelling Python sorted. -/
def sortStrings : List String → List String
  | [] => []
  | x :: xs => insertSorted x (sortStrings xs)

/-- The appended source citation block (lines 721 to 741). -/
def buildCitation (primaryName primaryId : String) (secondaryForRag : Option DrugRecord)
    (sources : List String) : String :=
  let uniqueSources := sortStrings sources.eraseDups
  let secPair : String × String :=
    match secondaryForRag with
    | some sd =>
      match sd.drugbank_id with
      | some sid => if sid ≠ "" then (sd.name.getD "N/A", sid) else ("N/A", "N/A")
      | none => ("N/A", "N/A")
    | none => ("N/A", "N/A")
  let dashes := String.mk (List.replicate 40 (Char.ofNat 45))
  "\n\n" ++ dashes ++ "\n" ++
  "✨ **Sources from Local DrugBank Database** ✨\n" ++
  "**Primary Drug:** " ++ primaryName ++ " (ID: " ++ primaryId ++ ")\n" ++
  (if secPair.1 ≠ "N/A" && secPair.2 ≠ primaryId then
    "**Secondary Drug:** " ++ secPair.1 ++ " (ID: " ++ secPair.2 ++ ")\n"
   else "") ++
  "Relevant Data Chunks Used (Vector ID or Interaction Source):\n" ++
  String.intercalate "\n" (uniqueSources.map (fun s => "- " ++ s))

/-- The arguments handed to the final RAG prompt template. -/
structure RagPrompt where
  history : String
  user_details : String
  context : String
  question : String
deriving DecidableEq, Repr, Inhabited

/-- Intermediate values of the drug flow recorded for observation:
resolved drug count, whether a direct structured finding exists, the
retrieval intent and the exclusion flag. -/
structure DrugFlowTrace where
  numMatches : Nat
  directFound : Bool
  ragIntent : RagIntent
  excludeInteractions : Bool
deriving DecidableEq, Repr, Inhabited

/-- Terminal branch taken by the orchestrator for one request. -/
inductive PathTag where
  | unavailable
  | reset
  | profileQuery
  | generalChat
  | drugNoId
  | drugNoInfo
  | answered
deriving DecidableEq, Repr, Inhabited

/-- Result of one request: response text, status code, the updated
session store, and observation fields recording which stages ran. -/
structure ChatResult where
  response : String
  status : Nat
  sessions : Sessions
  path : PathTag
  resolved : Option (List DrugRecord) := none
  interactionChecked : Bool := false
  drugFlow : Option DrugFlowTrace := none
  numDocsRetrieved : Option Nat := none
  finalPrompt : Option RagPrompt := none
  finalGeneratorInvoked : Bool := false
deriving DecidableEq, Repr

/-- The request environment: availability of the collaborators and the
abstracted results of every external call the pipeline can make.
The generator is consulted at most once for the final answer
(finalResp) and at most once for intent classification (classifyResp);
NER extraction including registry validation is pre-recorded as ner,
the vague follow-up regex result as vague, and the citation regex as
parseCitations. -/
structure Env where
  componentsOk : Bool
  userData : Option UserData
  userDetailsText : String
  renderHistory : List Turn → String
  ner : List DrugRecord
  vague : Bool
  parseCitations : String → List Citation
  findById : String → Option DrugRecord
  findByName : String → Option DrugRecord
  retrieve : String → Bool → List Doc
  classifyResp : Except Unit String
  finalResp : Except Unit String

/-- The structured interaction check of the drug flow: the primary is the
head of the resolved list, the secondaries come from the query and the
prescriptions. -/
def dfgCheck (env : Env) (ms : List DrugRecord) : String × List String × Option DrugRecord :=
  check_interactions ms.headI (get_secondary_drugs_for_check ms ms.headI env.userData env.findByName)

/-- The retrieval-filter decision of the drug flow. -/
def dfgIntent (env : Env) (question : String) (ms : List DrugRecord) : RagIntent × Bool :=
  decide_rag_intent (dfgCheck env ms).1 ms.length question env.classifyResp

/-- The retrieval targets of the drug flow: the primary and, when distinct
by id, the secondary retained by the interaction check. -/
def dfgTargets (env : Env) (ms : List DrugRecord) : List DrugRecord :=
  ms.headI :: (match (dfgCheck env ms).2.2 with
    | some sd => if !(sd.drugbank_id == ms.headI.drugbank_id) then [sd] else []
    | none => [])

/-- The passage retrieval outcome of the drug flow. -/
def dfgRag (env : Env) (question : String) (ms : List DrugRecord) : String × List String × Nat :=
  run_rag_targets env.retrieve (dfgIntent env question ms).2 (dfgTargets env ms)

/-- The recorded drug flow observation values. -/
def dfgTrace (env : Env) (question : String) (ms : List DrugRecord) : DrugFlowTrace :=
  { numMatches := ms.length, directFound := !((dfgCheck env ms).1 == ""),
    ragIntent := (dfgIntent env question ms).1,
    excludeInteractions := (dfgIntent env question ms).2 }

/-- The grounded part of the drug flow, entered once the primary drug has
a truthy DrugBank id: secondary assembly, the structured interaction
check, the retrieval-filter decision, passage retrieval, the
final-context guard, prompt assembly with history isolation, the
generator call, session persistence and the source citation. -/
def drug_flow_grounded (env : Env) (question userId : String) (sessions1 : Sessions)
    (history : String) (ms : List DrugRecord) : ChatResult :=
  let primary := ms.headI
  let primaryName := primary.name.getD "N/A"
  let primaryId := primary.drugbank_id.getD ""
  let ci := dfgCheck env ms
  let trace : DrugFlowTrace := dfgTrace env question ms
  let rr := dfgRag env question ms
  let contextText := ci.1 ++ rr.1
  let sources := ci.2.1 ++ rr.2.1
  if contextText == "" then
    { response := noInfoMsg primaryName, status := 200, sessions := sessions1,
      path := PathTag.drugNoInfo, resolved := some ms, interactionChecked := true,
      drugFlow := some trace, numDocsRetrieved := some rr.2.2 }
  else
    let prompt : RagPrompt :=
      { history := if !(ci.1 == "") then "" else history,
        user_details := env.userDetailsText, context := contextText,
        question := question }
    match env.finalResp with
    | Except.ok resp =>
      let responseText := pyTrim resp
      let sessions2 := saveTurn sessions1 userId ("User: " ++ question, "AI: " ++ responseText)
      let responseText2 :=
        if !sources.isEmpty then
          responseText ++ buildCitation primaryName primaryId ci.2.2 sources
        else responseText
      { response := responseText2, status := 200, sessions := sessions2,
        path := PathTag.answered, resolved := some ms, interactionChecked := true,
        drugFlow := some trace, numDocsRetrieved := some rr.2.2,
        finalPrompt := some prompt, finalGeneratorInvoked := true }
    | Except.error _ =>
      { response := ragErrMsg, status := 500, sessions := sessions1,
        path := PathTag.answered, resolved := some ms, interactionChecked := true,
        drugFlow := some trace, numDocsRetrieved := some rr.2.2,
        finalPrompt := some prompt, finalGeneratorInvoked := true }

/-- The drug flow of handle_chat_query (steps at lines 623 to 746):
reordering, the missing-id guard, and the grounded continuation. -/
def drug_flow_path (env : Env) (question userId : String) (sessions1 : Sessions)
    (history : String) (mongoMatches : List DrugRecord) : ChatResult :=
  let ms := reorder_matches question mongoMatches
  let primary := ms.headI
  let primaryName := primary.name.getD "N/A"
  if primary.drugbank_id.getD "" == "" then
    { response := noIdMsg primaryName, status := 200, sessions := sessions1,
      path := PathTag.drugNoId, resolved := some ms }
  else
    drug_flow_grounded env question userId sessions1 history ms

/-- The history string rendered from the session of the user (created
when absent), as read at the start of a non-reset request. -/
def handleHistory (env : Env) (userId : String) (sessions0 : Sessions) : String :=
  env.renderHistory ((sessionTurns (ensureSession sessions0 userId) userId).getD [])

/-- The entity resolution outcome for a request: extraction over the
current question with the history citation fallback. -/
def handleMatches (env : Env) (userId : String) (sessions0 : Sessions) : List DrugRecord :=
  extract_drugs_and_check_history env.ner env.vague
    (env.parseCitations (sanitizeHistory (handleHistory env userId sessions0))) env.findById

/-- handle_chat_query: availability guard, reset intercept, user and
memory fetch, entity resolution, profile intercept, general chat
fallback, and the drug flow. -/
def handle_chat_query (env : Env) (question : String) (userIdStr : Option String)
    (sessions0 : Sessions) : ChatResult :=
  if !env.componentsOk then
    { response := unavailableMsg, status := 500, sessions := sessions0,
      path := PathTag.unavailable }
  else if pyTrim (pyLower question) == "reset history" then
    let userId := userIdStr.getD "default_user"
    { response := resetMsg, status := 200, sessions := clearSession sessions0 userId,
      path := PathTag.reset }
  else
    let userId := userIdStr.getD "default_user"
    let sessions1 := ensureSession sessions0 userId
    let history := handleHistory env userId sessions0
    let mongoMatches := handleMatches env userId sessions0
    let userDetailQuery := hasAnyWord (pyLower question) profile_intercept_keywords
    if userDetailQuery && mongoMatches.isEmpty then
      match env.finalResp with
      | Except.ok resp =>
        { response := pyTrim resp, status := 200,
          sessions := saveTurn sessions1 userId ("User: " ++ question, "AI: " ++ pyTrim resp),
          path := PathTag.profileQuery, finalGeneratorInvoked := true }
      | Except.error _ =>
        { response := profileErrMsg, status := 500, sessions := sessions1,
          path := PathTag.profileQuery, finalGeneratorInvoked := true }
    else if mongoMatches.isEmpty then
      match env.finalResp with
      | Except.ok resp =>
        { response := pyTrim resp, status := 200,
          sessions := saveTurn sessions1 userId ("User: " ++ question, "AI: " ++ pyTrim resp),
          path := PathTag.generalChat, finalGeneratorInvoked := true }
      | Except.error _ =>
        { response := generalErrMsg, status := 500, sessions := sessions1,
          path := PathTag.generalChat, finalGeneratorInvoked := true }
    else
      drug_flow_path env question userId sessions1 history mongoMatches

/-! ## Sample data for concrete witnesses -/

/-- Sample drug: primary with one structured interaction entry. -/
def drugAb : DrugRecord :=
  { drugbank_id := some "DB1", name := some "ab",
    drug_interactions := [{ drugbank_id := some "DB2", description := some "bad mix" }] }

/-- Sample drug: the interacting secondary. -/
def drugCd : DrugRecord :=
  { drugbank_id := some "DB2", name := some "cd", drug_interactions := [] }

/-- Sample drug with no interaction entries. -/
def drugEf : DrugRecord :=
  { drugbank_id := some "DB3", name := some "ef", drug_interactions := [] }

/-- Sample drug lacking a DrugBank id. -/
def drugNoId : DrugRecord :=
  { drugbank_id := none, name := some "gh", drug_interactions := [] }

/-- Sample citation matches as parsed from a history string. -/
def sampleCits : List Citation :=
  [{ ctype := "Primary Drug", cname := "ab", cid := "DB1" },
   { ctype := "Secondary Drug", cname := "cd", cid := "DB2" }]

/-- Sample registry lookup by DrugBank id. -/
def sampleFindById : String → Option DrugRecord := fun i =>
  if i == "DB1" then some drugAb else if i == "DB2" then some drugCd else none

/-- A baseline concrete environment for witnesses. -/
def sampleEnv (ner : List DrugRecord) (finalResp : Except Unit String) : Env :=
  { componentsOk := true, userData := none, userDetailsText := "",
    renderHistory := fun _ => "", ner := ner, vague := false,
    parseCitations := fun _ => [], findById := fun _ => none,
    findByName := fun _ => none, retrieve := fun _ _ => [],
    classifyResp := Except.ok "GENERAL_INFO", finalResp := finalResp }

/-! ## Helper lemmas -/

theorem str_data_append (s t : String) : (s ++ t).data = s.data ++ t.data := by
  cases s
  cases t
  rfl

theorem str_append_eq_empty (s t : String) : s ++ t = "" ↔ s = "" ∧ t = "" := by
  constructor
  · intro h
    have hd : s.data ++ t.data = ([] : List Char) := by
      have h2 := congrArg String.data h
      rwa [str_data_append] at h2
    rcases List.append_eq_nil.mp hd with ⟨h1, h2⟩
    exact ⟨String.ext h1, String.ext h2⟩
  · rintro ⟨rfl, rfl⟩
    rfl

theorem interaction_warning_ne_empty (a b c d e : String) :
    interaction_warning a b c d e ≠ "" := by
  unfold interaction_warning
  intro h
  have hlast := ((str_append_eq_empty _ _).mp h).2
  exact absurd hlast (by decide)

theorem sessionTurns_clear (ss : Sessions) (uid : String) :
    sessionTurns (clearSession ss uid) uid = none := by
  induction ss with
  | nil => rfl
  | cons p rest ih =>
    by_cases h : p.1 = uid
    · simpa [clearSession, h] using ih
    · simpa [clearSession, sessionTurns, h] using ih

theorem clearSession_absent (ss : Sessions) (uid : String)
    (h : sessionTurns ss uid = none) : clearSession ss uid = ss := by
  induction ss with
  | nil => rfl
  | cons p rest ih =>
    by_cases hp : p.1 = uid
    · simp [sessionTurns, hp] at h
    · have h2 : sessionTurns rest uid = none := by simpa [sessionTurns, hp] using h
      simp [clearSession, hp, ih h2]

theorem sessionTurns_save (ss : Sessions) (uid : String) (t : Turn) :
    sessionTurns (saveTurn ss uid t) uid = (sessionTurns ss uid).map (fun l => l ++ [t]) := by
  induction ss with
  | nil => rfl
  | cons p rest ih =>
    by_cases hp : p.1 = uid
    · simp [saveTurn, sessionTurns, hp]
    · simpa [saveTurn, sessionTurns, hp] using ih

theorem sessionTurns_ensure (ss : Sessions) (uid : String) :
    sessionTurns (ensureSession ss uid) uid = some ((sessionTurns ss uid).getD []) := by
  unfold ensureSession
  by_cases h : (sessionTurns ss uid).isSome
  · rcases Option.isSome_iff_exists.mp h with ⟨l, hl⟩
    simp [h, hl]
  · have hn : sessionTurns ss uid = none := Option.not_isSome_iff_eq_none.mp h
    have happ : sessionTurns (ss ++ [(uid, [])]) uid = some [] := by
      induction ss with
      | nil => simp [sessionTurns]
      | cons p rest ih =>
        by_cases hp : p.1 = uid
        · simp [sessionTurns, hp] at hn
        · have h2 : sessionTurns rest uid = none := by simpa [sessionTurns, hp] using hn
          simpa [sessionTurns, hp] using ih (by simp [h2]) h2
    simp [h, happ, hn]

theorem checkInteractionsGo_no_match (primary : DrugRecord) (cs : List DrugRecord) :
    ∀ acc : Option DrugRecord,
      (∀ d ∈ cs, primary.drug_interactions.find? (fun i => i.drugbank_id == d.drugbank_id) = none) →
      checkInteractionsGo primary cs acc = ("", [], if acc.isSome then acc else cs.head?) := by
  induction cs with
  | nil =>
    intro acc _
    cases acc <;> simp [checkInteractionsGo]
  | cons sd rest ih =>
    intro acc h
    have hsd := h sd (by simp)
    have step : checkInteractionsGo primary (sd :: rest) acc =
        checkInteractionsGo primary rest (if acc.isSome then acc else some sd) := by
      simp only [checkInteractionsGo, hsd]
    rw [step, ih _ (fun d hd => h d (by simp [hd]))]
    cases acc <;> simp

theorem checkInteractionsGo_first_match (primary sd : DrugRecord) (inter : InteractionRecord)
    (post : List DrugRecord)
    (hsd : primary.drug_interactions.find? (fun i => i.drugbank_id == sd.drugbank_id) = some inter)
    (pre : List DrugRecord) :
    ∀ acc : Option DrugRecord,
      (∀ d ∈ pre, primary.drug_interactions.find? (fun i => i.drugbank_id == d.drugbank_id) = none) →
      checkInteractionsGo primary (pre ++ sd :: post) acc =
        (interaction_warning (primary.name.getD "N/A") (primary.drugbank_id.getD "N/A")
          (sd.name.getD "N/A") (pyStr sd.drugbank_id) (inter.description.getD noDescriptionMsg),
         [interactionSourceTag (primary.name.getD "N/A") (sd.name.getD "N/A")], some sd) := by
  induction pre with
  | nil =>
    intro acc _
    simp only [List.nil_append, checkInteractionsGo, hsd]
  | cons d0 rest ih =>
    intro acc h
    have hd0 := h d0 (by simp)
    have step : checkInteractionsGo primary ((d0 :: rest) ++ sd :: post) acc =
        checkInteractionsGo primary (rest ++ sd :: post) (if acc.isSome then acc else some d0) := by
      simp only [List.cons_append, checkInteractionsGo, hd0]
      rfl
    rw [step]
    exact ih _ (fun d hd => h d (by simp [hd]))

/-! ## Claim theorems -/

/-- C3: the interaction resolver returns immediately on the first secondary
candidate whose id matches an entry of the primary interactions list,
with nonempty warning context (found), the missing-description fallback
text when the matched record lacks a description, and when no candidate
matches it returns empty context (not found) with the first candidate
carried forward as the default drug for passage retrieval. -/
theorem interaction_resolver_spec (primary sd : DrugRecord) (inter : InteractionRecord)
    (pre post : List DrugRecord)
    (hpre : ∀ d ∈ pre,
      primary.drug_interactions.find? (fun i => i.drugbank_id == d.drugbank_id) = none)
    (hsd : primary.drug_interactions.find? (fun i => i.drugbank_id == sd.drugbank_id) = some inter) :
    check_interactions primary (pre ++ sd :: post) =
      (interaction_warning (primary.name.getD "N/A") (primary.drugbank_id.getD "N/A")
        (sd.name.getD "N/A") (pyStr sd.drugbank_id) (inter.description.getD noDescriptionMsg),
       [interactionSourceTag (primary.name.getD "N/A") (sd.name.getD "N/A")], some sd) ∧
    (check_interactions primary (pre ++ sd :: post)).1 ≠ "" ∧
    (inter.description = none →
      (check_interactions primary (pre ++ sd :: post)).1 =
        interaction_warning (primary.name.getD "N/A") (primary.drugbank_id.getD "N/A")
          (sd.name.getD "N/A") (pyStr sd.drugbank_id) noDescriptionMsg) ∧
    (∀ cs : List DrugRecord,
      (∀ d ∈ cs,
        primary.drug_interactions.find? (fun i => i.drugbank_id == d.drugbank_id) = none) →
      check_interactions primary cs = ("", [], cs.head?)) := by
  have he : check_interactions primary (pre ++ sd :: post) =
      (interaction_warning (primary.name.getD "N/A") (primary.drugbank_id.getD "N/A")
        (sd.name.getD "N/A") (pyStr sd.drugbank_id) (inter.description.getD noDescriptionMsg),
       [interactionSourceTag (primary.name.getD "N/A") (sd.name.getD "N/A")], some sd) :=
    checkInteractionsGo_first_match primary sd inter post hsd pre none hpre
  refine ⟨he, ?_, ?_, ?_⟩
  · rw [he]
    exact interaction_warning_ne_empty _ _ _ _ _
  · intro hd
    rw [he]
    simp [hd]
  · intro cs hcs
    have h2 := checkInteractionsGo_no_match primary cs none hcs
    simpa [check_interactions] using h2

/-- Concrete instantiation of the interaction resolver claim. -/
theorem interaction_resolver_spec_witness :
    check_interactions drugAb [drugCd] =
      (interaction_warning "ab" "DB1" "cd" "DB2" "bad mix",
       [interactionSourceTag "ab" "cd"], some drugCd) ∧
    check_interactions drugAb [drugEf] = ("", [], some drugEf) := by
  have h := interaction_resolver_spec drugAb drugCd
    { drugbank_id := some "DB2", description := some "bad mix" } [] [] (by simp) (by decide)
  exact ⟨h.1, by simpa using h.2.2.2 [drugEf] (by decide)⟩

/-- C4 counterexample: with no interaction keyword in the question and an
ambiguous generator answer matching no label, the classifier returns
OTHER, not GENERAL_INFO as claimed. -/
theorem intent_classifier_ambiguous_counterexample :
    classify_rag_intent "tell me about aspirin" (Except.ok "UNCLEAR") = RagIntent.OTHER ∧
    RagIntent.OTHER ≠ RagIntent.GENERAL_INFO ∧
    interaction_keywords.any (fun k => containsSubstr (pyLower "tell me about aspirin") k) = false :=
  ⟨by decide, by decide, by decide⟩

/-- C4 amended: for a question with none of the fixed interaction
keywords, a failed generator call yields GENERAL_INFO while ambiguous
generator output (matching no known label) yields OTHER. -/
theorem intent_classifier_defaults (q : String)
    (hk : interaction_keywords.any (fun k => containsSubstr (pyLower q) k) = false) :
    classify_rag_intent q (Except.error ()) = RagIntent.GENERAL_INFO ∧
    ∀ r : String, containsSubstr (pyUpper (pyTrim r)) "INTERACTION" = false →
      containsSubstr (pyUpper (pyTrim r)) "GENERAL_INFO" = false →
      classify_rag_intent q (Except.ok r) = RagIntent.OTHER := by
  constructor
  · simp [classify_rag_intent, hk]
  · intro r h1 h2
    simp [classify_rag_intent, hk, h1, h2]

/-- Concrete instantiation of the amended classifier claim. -/
theorem intent_classifier_defaults_witness :
    classify_rag_intent "tell me about aspirin" (Except.error ()) = RagIntent.GENERAL_INFO ∧
    classify_rag_intent "tell me about aspirin" (Except.ok "UNCLEAR") = RagIntent.OTHER := by
  have h := intent_classifier_defaults "tell me about aspirin" (by decide)
  exact ⟨h.1, h.2 "UNCLEAR" (by decide) (by decide)⟩

theorem historyFallbackGo_spec (f : String → Option DrugRecord) (cs : List Citation) :
    ∀ (seen : List String) (acc : List DrugRecord), acc.length < 2 →
      historyFallbackGo f cs acc seen = ((specScan f cs seen).take (2 - acc.length)).reverse ++ acc := by
  induction cs with
  | nil =>
    intro seen acc _
    simp [historyFallbackGo, specScan]
  | cons c rest ih =>
    intro seen acc hlen
    cases hc : seen.contains c.cid with
    | true =>
      have hL : historyFallbackGo f (c :: rest) acc seen = historyFallbackGo f rest acc seen := by
        simp only [historyFallbackGo, hc, if_true]
      have hR : specScan f (c :: rest) seen = specScan f rest seen := by
        simp only [specScan, hc, if_true]
      rw [hL, hR]
      exact ih seen acc hlen
    | false =>
      cases hf : f c.cid with
      | none =>
        have hL : historyFallbackGo f (c :: rest) acc seen = historyFallbackGo f rest acc seen := by
          simp only [historyFallbackGo, hc, hf]
          rfl
        have hR : specScan f (c :: rest) seen = specScan f rest seen := by
          simp only [specScan, hc, hf]
          rfl
        rw [hL, hR]
        exact ih seen acc hlen
      | some doc =>
        have hR : specScan f (c :: rest) seen = doc :: specScan f rest (c.cid :: seen) := by
          simp only [specScan, hc, hf]
          rfl
        by_cases h2 : acc.length = 1
        · have hL : historyFallbackGo f (c :: rest) acc seen = doc :: acc := by
            simp only [historyFallbackGo, hc, hf]
            simp [h2]
          rw [hL, hR, h2]
          simp
        · have h0 : acc.length = 0 := by omega
          have hae : acc = [] := List.length_eq_zero.mp h0
          have hL : historyFallbackGo f (c :: rest) acc seen =
              historyFallbackGo f rest (doc :: acc) (c.cid :: seen) := by
            simp only [historyFallbackGo, hc, hf]
            simp [h0]
          rw [hL, ih (c.cid :: seen) (doc :: acc) (by simp [h0]), hR, hae]
          simp

/-- C5: the entity resolver runs the history fallback exactly when the
current-question extraction found zero drugs, or the question is a vague
follow-up while fewer than two drugs were found; the fallback equals the
spec-side description (scan the citations from the end, collect up to
two distinct resolvable ids, restore citation order); and a nonempty
fallback result fully replaces the extraction result. -/
theorem entity_fallback_spec (mm : List DrugRecord) (vague : Bool) (cs : List Citation)
    (f : String → Option DrugRecord) :
    (¬(mm = [] ∨ (vague = true ∧ mm.length < 2)) →
      extract_drugs_and_check_history mm vague cs f = mm) ∧
    ((mm = [] ∨ (vague = true ∧ mm.length < 2)) →
      extract_drugs_and_check_history mm vague cs f =
        (if (lastCitedDrugs cs f).isEmpty then mm else lastCitedDrugs cs f)) ∧
    historyFallback cs f = lastCitedDrugs cs f ∧
    (lastCitedDrugs cs f).length ≤ 2 := by
  have hfb : historyFallback cs f = lastCitedDrugs cs f := by
    unfold historyFallback lastCitedDrugs
    have h := historyFallbackGo_spec f cs.reverse [] [] (by norm_num)
    simpa using h
  refine ⟨?_, ?_, hfb, ?_⟩
  · intro h
    have hcond : (mm.isEmpty || (vague && decide (mm.length < 2))) = false := by
      rcases not_or.mp h with ⟨h1, h2⟩
      by_cases hv : vague = true
      · have : ¬ mm.length < 2 := fun hlt => h2 ⟨hv, hlt⟩
        simp [List.isEmpty_iff, h1, this]
      · simp [List.isEmpty_iff, h1]
        intro hvv
        exact absurd hvv hv
    unfold extract_drugs_and_check_history
    simp [hcond]
  · intro h
    have hcond : (mm.isEmpty || (vague && decide (mm.length < 2))) = true := by
      rcases h with h1 | ⟨h2, h3⟩
      · simp [List.isEmpty_iff, h1]
      · simp [h2, h3]
    unfold extract_drugs_and_check_history
    rw [hcond]
    simp only [if_true]
    rw [hfb]
  · unfold lastCitedDrugs
    simp only [List.length_reverse, List.length_take]
    exact Nat.min_le_left _ _

/-- Concrete instantiation of the entity fallback claim. -/
theorem entity_fallback_spec_witness :
    extract_drugs_and_check_history [] false sampleCits sampleFindById = [drugAb, drugCd] := by
  have h := (entity_fallback_spec [] false sampleCits sampleFindById).2.1 (Or.inl rfl)
  rw [h]
  decide

/-- C6: with two resolved drugs, the primary and secondary are swapped
exactly when the question contains a take or interaction keyword and
the first case-insensitive occurrence of the second name precedes the
first occurrence of the first name; a second drug whose name is absent
from the question never wins reordering. -/
theorem reorder_primary_secondary_spec (q : String) (m0 m1 : DrugRecord)
    (rest : List DrugRecord) :
    reorder_matches q (m0 :: m1 :: rest) =
      (if (containsSubstr (pyLower q) "take" || containsSubstr (pyLower q) "interaction")
          && firstOccursBefore (strFind (pyLower q) (pyLower (m1.name.getD "")))
               (strFind (pyLower q) (pyLower (m0.name.getD ""))) then
        m1 :: m0 :: rest
       else m0 :: m1 :: rest) ∧
    (strFind (pyLower q) (pyLower (m1.name.getD "")) = none →
      reorder_matches q (m0 :: m1 :: rest) = m0 :: m1 :: rest) := by
  have hmain : reorder_matches q (m0 :: m1 :: rest) =
      (if (containsSubstr (pyLower q) "take" || containsSubstr (pyLower q) "interaction")
          && firstOccursBefore (strFind (pyLower q) (pyLower (m1.name.getD "")))
               (strFind (pyLower q) (pyLower (m0.name.getD ""))) then
        m1 :: m0 :: rest
       else m0 :: m1 :: rest) := by
    unfold reorder_matches firstOccursBefore
    cases hkw : (containsSubstr (pyLower q) "take" || containsSubstr (pyLower q) "interaction") with
    | false => simp [hkw]
    | true =>
      simp only [hkw, if_true, Bool.true_and]
      cases h1 : strFind (pyLower q) (pyLower (m1.name.getD "")) with
      | none => simp
      | some i1 =>
        cases h0 : strFind (pyLower q) (pyLower (m0.name.getD "")) with
        | none => simp
        | some i0 =>
          by_cases hlt : i1 < i0
          · simp [hlt]
          · simp [hlt]
  refine ⟨hmain, ?_⟩
  intro h1
  rw [hmain, h1]
  simp [firstOccursBefore]

/-- Concrete instantiation of the reorder claim. -/
theorem reorder_primary_secondary_spec_witness :
    reorder_matches "can i take cd with ab" [drugAb, drugCd] = [drugCd, drugAb] ∧
    reorder_matches "take x" [drugAb, drugCd] = [drugAb, drugCd] := by
  have h1 := (reorder_primary_secondary_spec "can i take cd with ab" drugAb drugCd []).1
  have h2 := (reorder_primary_secondary_spec "take x" drugAb drugCd []).2 (by decide)
  refine ⟨?_, h2⟩
  rw [h1]
  decide

theorem reorder_matches_length (q : String) (mm : List DrugRecord) :
    (reorder_matches q mm).length = mm.length := by
  unfold reorder_matches
  cases mm with
  | nil => rfl
  | cons m0 rest0 =>
    cases rest0 with
    | nil => rfl
    | cons m1 rest =>
      cases containsSubstr (pyLower q) "take" || containsSubstr (pyLower q) "interaction" with
      | false => simp
      | true =>
        simp only [if_true]
        cases strFind (pyLower q) (pyLower (m1.name.getD "")) with
        | none => simp
        | some i1 =>
          cases strFind (pyLower q) (pyLower (m0.name.getD "")) with
          | none => simp
          | some i0 =>
            by_cases hlt : i1 < i0 <;> simp [hlt]

theorem get_drug_context_empty (retrieve : String → Bool → List Doc) (d : DrugRecord)
    (excl : Bool) (h : (get_drug_context_rag_docs retrieve d excl).1 = []) :
    (get_drug_context_rag_docs retrieve d excl).2 = "" := by
  unfold get_drug_context_rag_docs at *
  cases hid : d.drugbank_id with
  | none => rfl
  | some did =>
    simp only [hid] at h ⊢
    by_cases hd : did = ""
    · simp [hd]
    · simp only [beq_iff_eq, hd, if_false] at h ⊢
      cases he : (retrieve did excl).isEmpty with
      | true => simp [he]
      | false => simp [he] at h ⊢; exact absurd h (by simpa [List.isEmpty_iff] using he)

theorem runRagTargetsGo_zero (retrieve : String → Bool → List Doc) (excl : Bool)
    (ts : List DrugRecord) :
    ∀ seen : List String, (runRagTargetsGo retrieve excl ts seen).2.2 = 0 →
      (runRagTargetsGo retrieve excl ts seen).1 = "" := by
  induction ts with
  | nil => intro seen _; rfl
  | cons d rest ih =>
    intro seen h
    cases hid : d.drugbank_id with
    | none =>
      have hL : runRagTargetsGo retrieve excl (d :: rest) seen =
          runRagTargetsGo retrieve excl rest seen := by
        simp only [runRagTargetsGo, hid]
      rw [hL] at h ⊢
      exact ih seen h
    | some did =>
      by_cases hc : did ≠ "" ∧ ¬ seen.contains did = true
      · have hns : did ∉ seen := by simpa using hc.2
        have hcb : (did ≠ "" && !(seen.contains did)) = true := by
          simp [hc.1, hns]
        have hL : runRagTargetsGo retrieve excl (d :: rest) seen =
            ((get_drug_context_rag_docs retrieve d excl).2 ++
              (runRagTargetsGo retrieve excl rest (did :: seen)).1,
             (get_drug_context_rag_docs retrieve d excl).1.map
               (fun doc => doc.metaId.getD (pyStr d.name ++ " RAG: " ++ did)) ++
               (runRagTargetsGo retrieve excl rest (did :: seen)).2.1,
             (get_drug_context_rag_docs retrieve d excl).1.length +
               (runRagTargetsGo retrieve excl rest (did :: seen)).2.2) := by
          simp only [runRagTargetsGo, hid, hcb, if_true]
        rw [hL] at h ⊢
        simp only at h ⊢
        have hdoc0 : (get_drug_context_rag_docs retrieve d excl).1.length = 0 := by omega
        have htail0 : (runRagTargetsGo retrieve excl rest (did :: seen)).2.2 = 0 := by omega
        have hctx := get_drug_context_empty retrieve d excl (List.length_eq_zero.mp hdoc0)
        rw [hctx, ih (did :: seen) htail0]
        rfl
      · have hcb : (did ≠ "" && !(seen.contains did)) = false := by
          by_cases h1 : did = ""
          · simp [h1]
          · have h2 : seen.contains did = true := by
              rcases not_and_or.mp hc with h3 | h3
              · exact absurd h1 (not_not.mp (by simpa using h3))
              · simpa using not_not.mp h3
            have hmem : did ∈ seen := by simpa using h2
            simp [hmem]
        have hL : runRagTargetsGo retrieve excl (d :: rest) seen =
            runRagTargetsGo retrieve excl rest seen := by
          simp only [runRagTargetsGo, hid, hcb]
          simp
        rw [hL] at h ⊢
        exact ih seen h

theorem decide_rag_intent_spec (d : String) (n : Nat) (q : String)
    (cr : Except Unit String) (hn : 1 ≤ n) :
    ((d ≠ "" ∨ 1 < n) → (decide_rag_intent d n q cr).2 = false) ∧
    ((decide_rag_intent d n q cr).2 = true ↔
      (n = 1 ∧ d = "" ∧ (decide_rag_intent d n q cr).1 = RagIntent.GENERAL_INFO)) := by
  by_cases hd : d = ""
  · by_cases h1 : n > 1
    · have hb : (!(d == "") || decide (n > 1)) = true := by simp [h1]
      have he : decide_rag_intent d n q cr = (RagIntent.INTERACTION, false) := by
        unfold decide_rag_intent
        rw [hb]
        simp
      rw [he]
      constructor
      · intro _; rfl
      · constructor
        · intro hfalse; exact absurd hfalse (by simp)
        · rintro ⟨hn1, -, -⟩; omega
    · have hn1 : n = 1 := by omega
      have hb : (!(d == "") || decide (n > 1)) = false := by simp [hd, h1]
      have he : decide_rag_intent d n q cr =
          (classify_rag_intent q cr, decide (classify_rag_intent q cr = RagIntent.GENERAL_INFO)) := by
        unfold decide_rag_intent
        rw [hb]
        simp
      rw [he]
      constructor
      · rintro (h2 | h2)
        · exact absurd hd h2
        · exact absurd h2 (by omega)
      · simp [hn1, hd, decide_eq_true_iff]
  · have hb : (!(d == "") || decide (n > 1)) = true := by simp [hd]
    have he : decide_rag_intent d n q cr = (RagIntent.INTERACTION, false) := by
      unfold decide_rag_intent
      rw [hb]
      simp
    rw [he]
    constructor
    · intro _; rfl
    · constructor
      · intro hfalse; exact absurd hfalse (by simp)
      · rintro ⟨-, h2, -⟩; exact absurd h2 hd

theorem dfg_eq_noInfo (env : Env) (q uidS : String) (s1 : Sessions) (hist : String)
    (ms : List DrugRecord)
    (h : (dfgCheck env ms).1 ++ (dfgRag env q ms).1 = "") :
    drug_flow_grounded env q uidS s1 hist ms =
      { response := noInfoMsg (ms.headI.name.getD "N/A"), status := 200, sessions := s1,
        path := PathTag.drugNoInfo, resolved := some ms, interactionChecked := true,
        drugFlow := some (dfgTrace env q ms),
        numDocsRetrieved := some (dfgRag env q ms).2.2 } := by
  unfold drug_flow_grounded
  dsimp only
  rw [h]
  simp

theorem dfg_eq_ok (env : Env) (q uidS : String) (s1 : Sessions) (hist : String)
    (ms : List DrugRecord) (resp : String)
    (h : (dfgCheck env ms).1 ++ (dfgRag env q ms).1 ≠ "")
    (hr : env.finalResp = Except.ok resp) :
    drug_flow_grounded env q uidS s1 hist ms =
      { response :=
          (if !((dfgCheck env ms).2.1 ++ (dfgRag env q ms).2.1).isEmpty then
            pyTrim resp ++ buildCitation (ms.headI.name.getD "N/A") (ms.headI.drugbank_id.getD "")
              (dfgCheck env ms).2.2 ((dfgCheck env ms).2.1 ++ (dfgRag env q ms).2.1)
           else pyTrim resp),
        status := 200,
        sessions := saveTurn s1 uidS ("User: " ++ q, "AI: " ++ pyTrim resp),
        path := PathTag.answered, resolved := some ms, interactionChecked := true,
        drugFlow := some (dfgTrace env q ms),
        numDocsRetrieved := some (dfgRag env q ms).2.2,
        finalPrompt := some
          { history := if !((dfgCheck env ms).1 == "") then "" else hist,
            user_details := env.userDetailsText,
            context := (dfgCheck env ms).1 ++ (dfgRag env q ms).1, question := q },
        finalGeneratorInvoked := true } := by
  unfold drug_flow_grounded
  dsimp only
  rw [if_neg (by simp [h]), hr]

theorem dfg_eq_err (env : Env) (q uidS : String) (s1 : Sessions) (hist : String)
    (ms : List DrugRecord)
    (h : (dfgCheck env ms).1 ++ (dfgRag env q ms).1 ≠ "")
    (hr : env.finalResp = Except.error ()) :
    drug_flow_grounded env q uidS s1 hist ms =
      { response := ragErrMsg, status := 500, sessions := s1,
        path := PathTag.answered, resolved := some ms, interactionChecked := true,
        drugFlow := some (dfgTrace env q ms),
        numDocsRetrieved := some (dfgRag env q ms).2.2,
        finalPrompt := some
          { history := if !((dfgCheck env ms).1 == "") then "" else hist,
            user_details := env.userDetailsText,
            context := (dfgCheck env ms).1 ++ (dfgRag env q ms).1, question := q },
        finalGeneratorInvoked := true } := by
  unfold drug_flow_grounded
  dsimp only
  rw [if_neg (by simp [h]), hr]

theorem dfp_eq_noId (env : Env) (q uidS : String) (s1 : Sessions) (hist : String)
    (mm : List DrugRecord)
    (hid : (reorder_matches q mm).headI.drugbank_id.getD "" = "") :
    drug_flow_path env q uidS s1 hist mm =
      { response := noIdMsg ((reorder_matches q mm).headI.name.getD "N/A"), status := 200,
        sessions := s1, path := PathTag.drugNoId,
        resolved := some (reorder_matches q mm) } := by
  unfold drug_flow_path
  dsimp only
  rw [hid]
  simp

theorem dfp_eq_grounded (env : Env) (q uidS : String) (s1 : Sessions) (hist : String)
    (mm : List DrugRecord)
    (hid : (reorder_matches q mm).headI.drugbank_id.getD "" ≠ "") :
    drug_flow_path env q uidS s1 hist mm =
      drug_flow_grounded env q uidS s1 hist (reorder_matches q mm) := by
  unfold drug_flow_path
  dsimp only
  rw [if_neg (by simp [hid])]

theorem handle_eq_unavailable (env : Env) (q : String) (uid : Option String) (ss : Sessions)
    (h : env.componentsOk = false) :
    handle_chat_query env q uid ss =
      { response := unavailableMsg, status := 500, sessions := ss,
        path := PathTag.unavailable } := by
  unfold handle_chat_query
  simp [h]

theorem handle_eq_reset (env : Env) (q : String) (uid : Option String) (ss : Sessions)
    (hok : env.componentsOk = true) (hq : pyTrim (pyLower q) = "reset history") :
    handle_chat_query env q uid ss =
      { response := resetMsg, status := 200,
        sessions := clearSession ss (uid.getD "default_user"), path := PathTag.reset } := by
  unfold handle_chat_query
  simp [hok, hq]

theorem handle_eq_profile (env : Env) (q : String) (uid : Option String) (ss : Sessions)
    (hok : env.componentsOk = true) (hq : pyTrim (pyLower q) ≠ "reset history")
    (hpd : hasAnyWord (pyLower q) profile_intercept_keywords = true)
    (hmm : handleMatches env (uid.getD "default_user") ss = []) :
    handle_chat_query env q uid ss =
      (match env.finalResp with
       | Except.ok resp =>
         { response := pyTrim resp, status := 200,
           sessions := saveTurn (ensureSession ss (uid.getD "default_user"))
             (uid.getD "default_user") ("User: " ++ q, "AI: " ++ pyTrim resp),
           path := PathTag.profileQuery, finalGeneratorInvoked := true }
       | Except.error _ =>
         { response := profileErrMsg, status := 500,
           sessions := ensureSession ss (uid.getD "default_user"),
           path := PathTag.profileQuery, finalGeneratorInvoked := true }) := by
  unfold handle_chat_query
  simp [hok, hq, hpd, hmm]

theorem handle_eq_general (env : Env) (q : String) (uid : Option String) (ss : Sessions)
    (hok : env.componentsOk = true) (hq : pyTrim (pyLower q) ≠ "reset history")
    (hpd : hasAnyWord (pyLower q) profile_intercept_keywords = false)
    (hmm : handleMatches env (uid.getD "default_user") ss = []) :
    handle_chat_query env q uid ss =
      (match env.finalResp with
       | Except.ok resp =>
         { response := pyTrim resp, status := 200,
           sessions := saveTurn (ensureSession ss (uid.getD "default_user"))
             (uid.getD "default_user") ("User: " ++ q, "AI: " ++ pyTrim resp),
           path := PathTag.generalChat, finalGeneratorInvoked := true }
       | Except.error _ =>
         { response := generalErrMsg, status := 500,
           sessions := ensureSession ss (uid.getD "default_user"),
           path := PathTag.generalChat, finalGeneratorInvoked := true }) := by
  unfold handle_chat_query
  simp [hok, hq, hpd, hmm]

theorem handle_eq_drug (env : Env) (q : String) (uid : Option String) (ss : Sessions)
    (hok : env.componentsOk = true) (hq : pyTrim (pyLower q) ≠ "reset history")
    (hmm : handleMatches env (uid.getD "default_user") ss ≠ []) :
    handle_chat_query env q uid ss =
      drug_flow_path env q (uid.getD "default_user")
        (ensureSession ss (uid.getD "default_user"))
        (handleHistory env (uid.getD "default_user") ss)
        (handleMatches env (uid.getD "default_user") ss) := by
  unfold handle_chat_query
  simp [hok, hq, hmm]

theorem dfg_drugFlow (env : Env) (q uidS : String) (s1 : Sessions) (hist : String)
    (ms : List DrugRecord) :
    (drug_flow_grounded env q uidS s1 hist ms).drugFlow = some (dfgTrace env q ms) := by
  unfold drug_flow_grounded
  dsimp only
  split
  · rfl
  · split <;> rfl

theorem dfg_resolved (env : Env) (q uidS : String) (s1 : Sessions) (hist : String)
    (ms : List DrugRecord) :
    (drug_flow_grounded env q uidS s1 hist ms).resolved = some ms := by
  unfold drug_flow_grounded
  dsimp only
  split
  · rfl
  · split <;> rfl

theorem dfg_numDocs (env : Env) (q uidS : String) (s1 : Sessions) (hist : String)
    (ms : List DrugRecord) :
    (drug_flow_grounded env q uidS s1 hist ms).numDocsRetrieved =
      some (dfgRag env q ms).2.2 := by
  unfold drug_flow_grounded
  dsimp only
  split
  · rfl
  · split <;> rfl

theorem handle_branches (env : Env) (q : String) (uid : Option String) (ss : Sessions) :
    (env.componentsOk = false ∧
      handle_chat_query env q uid ss =
        { response := unavailableMsg, status := 500, sessions := ss,
          path := PathTag.unavailable }) ∨
    (env.componentsOk = true ∧ pyTrim (pyLower q) = "reset history" ∧
      handle_chat_query env q uid ss =
        { response := resetMsg, status := 200,
          sessions := clearSession ss (uid.getD "default_user"), path := PathTag.reset }) ∨
    (env.componentsOk = true ∧ pyTrim (pyLower q) ≠ "reset history" ∧
      handleMatches env (uid.getD "default_user") ss = [] ∧
      handle_chat_query env q uid ss =
        (match env.finalResp with
         | Except.ok resp =>
           { response := pyTrim resp, status := 200,
             sessions := saveTurn (ensureSession ss (uid.getD "default_user"))
               (uid.getD "default_user") ("User: " ++ q, "AI: " ++ pyTrim resp),
             path := PathTag.profileQuery, finalGeneratorInvoked := true }
         | Except.error _ =>
           { response := profileErrMsg, status := 500,
             sessions := ensureSession ss (uid.getD "default_user"),
             path := PathTag.profileQuery, finalGeneratorInvoked := true })) ∨
    (env.componentsOk = true ∧ pyTrim (pyLower q) ≠ "reset history" ∧
      handleMatches env (uid.getD "default_user") ss = [] ∧
      handle_chat_query env q uid ss =
        (match env.finalResp with
         | Except.ok resp =>
           { response := pyTrim resp, status := 200,
             sessions := saveTurn (ensureSession ss (uid.getD "default_user"))
               (uid.getD "default_user") ("User: " ++ q, "AI: " ++ pyTrim resp),
             path := PathTag.generalChat, finalGeneratorInvoked := true }
         | Except.error _ =>
           { response := generalErrMsg, status := 500,
             sessions := ensureSession ss (uid.getD "default_user"),
             path := PathTag.generalChat, finalGeneratorInvoked := true })) ∨
    (env.componentsOk = true ∧ pyTrim (pyLower q) ≠ "reset history" ∧
      handleMatches env (uid.getD "default_user") ss ≠ [] ∧
      handle_chat_query env q uid ss =
        drug_flow_path env q (uid.getD "default_user")
          (ensureSession ss (uid.getD "default_user"))
          (handleHistory env (uid.getD "default_user") ss)
          (handleMatches env (uid.getD "default_user") ss)) := by
  by_cases hok : env.componentsOk = true
  · by_cases hq : pyTrim (pyLower q) = "reset history"
    · exact Or.inr (Or.inl ⟨hok, hq, handle_eq_reset env q uid ss hok hq⟩)
    · by_cases hmm : handleMatches env (uid.getD "default_user") ss = []
      · by_cases hpd : hasAnyWord (pyLower q) profile_intercept_keywords = true
        · exact Or.inr (Or.inr (Or.inl ⟨hok, hq, hmm,
            handle_eq_profile env q uid ss hok hq hpd hmm⟩))
        · have hpd' : hasAnyWord (pyLower q) profile_intercept_keywords = false := by
            simpa using hpd
          exact Or.inr (Or.inr (Or.inr (Or.inl ⟨hok, hq, hmm,
            handle_eq_general env q uid ss hok hq hpd' hmm⟩)))
      · exact Or.inr (Or.inr (Or.inr (Or.inr ⟨hok, hq, hmm,
          handle_eq_drug env q uid ss hok hq hmm⟩)))
  · exact Or.inl ⟨by simpa using hok, handle_eq_unavailable env q uid ss (by simpa using hok)⟩

theorem handle_drugFlow_cases (env : Env) (q : String) (uid : Option String) (ss : Sessions)
    (t : DrugFlowTrace)
    (hdf : (handle_chat_query env q uid ss).drugFlow = some t) :
    handleMatches env (uid.getD "default_user") ss ≠ [] ∧
    (reorder_matches q (handleMatches env (uid.getD "default_user") ss)).headI.drugbank_id.getD "" ≠ "" ∧
    handle_chat_query env q uid ss =
      drug_flow_grounded env q (uid.getD "default_user")
        (ensureSession ss (uid.getD "default_user"))
        (handleHistory env (uid.getD "default_user") ss)
        (reorder_matches q (handleMatches env (uid.getD "default_user") ss)) ∧
    t = dfgTrace env q (reorder_matches q (handleMatches env (uid.getD "default_user") ss)) := by
  rcases handle_branches env q uid ss with
    ⟨-, he⟩ | ⟨-, -, he⟩ | ⟨-, -, -, he⟩ | ⟨-, -, -, he⟩ | ⟨-, -, hmm, he⟩
  · rw [he] at hdf; simp at hdf
  · rw [he] at hdf; simp at hdf
  · rw [he] at hdf
    cases hfr : env.finalResp <;> rw [hfr] at hdf <;> simp at hdf
  · rw [he] at hdf
    cases hfr : env.finalResp <;> rw [hfr] at hdf <;> simp at hdf
  · by_cases hid : (reorder_matches q (handleMatches env (uid.getD "default_user") ss)).headI.drugbank_id.getD "" = ""
    · rw [he, dfp_eq_noId _ _ _ _ _ _ hid] at hdf
      simp at hdf
    · have heq := he.trans (dfp_eq_grounded _ _ _ _ _ _ hid)
      refine ⟨hmm, hid, heq, ?_⟩
      rw [heq, dfg_drugFlow] at hdf
      exact (Option.some.inj hdf).symm

/-- C1: whenever a direct structured interaction finding exists or more
than one drug was resolved, the retrieval exclusion flag is false; the
flag is true exactly when one drug was resolved, no direct finding
exists, and the intent classification produced GENERAL_INFO. -/
theorem exclude_interactions_policy (env : Env) (q : String) (uid : Option String)
    (ss : Sessions) (t : DrugFlowTrace)
    (hdf : (handle_chat_query env q uid ss).drugFlow = some t) :
    (t.directFound = true ∨ t.numMatches > 1 → t.excludeInteractions = false) ∧
    (t.excludeInteractions = true ↔
      (t.numMatches = 1 ∧ t.directFound = false ∧ t.ragIntent = RagIntent.GENERAL_INFO)) := by
  obtain ⟨hmm, -, -, ht⟩ := handle_drugFlow_cases env q uid ss t hdf
  subst ht
  have hn : 1 ≤ (reorder_matches q (handleMatches env (uid.getD "default_user") ss)).length := by
    rw [reorder_matches_length]
    exact List.length_pos.mpr hmm
  have hspec := decide_rag_intent_spec
    (dfgCheck env (reorder_matches q (handleMatches env (uid.getD "default_user") ss))).1
    (reorder_matches q (handleMatches env (uid.getD "default_user") ss)).length
    q env.classifyResp hn
  constructor
  · intro h
    have hcond :
        (dfgCheck env (reorder_matches q (handleMatches env (uid.getD "default_user") ss))).1 ≠ "" ∨
        1 < (reorder_matches q (handleMatches env (uid.getD "default_user") ss)).length := by
      rcases h with h1 | h2
      · left
        simp only [dfgTrace] at h1
        simpa using h1
      · right
        simpa [dfgTrace] using h2
    have hout := hspec.1 hcond
    simpa [dfgTrace, dfgIntent] using hout
  · constructor
    · intro hex
      have hex2 :
          (decide_rag_intent
            (dfgCheck env (reorder_matches q (handleMatches env (uid.getD "default_user") ss))).1
            (reorder_matches q (handleMatches env (uid.getD "default_user") ss)).length
            q env.classifyResp).2 = true := by
        simpa [dfgTrace, dfgIntent] using hex
      obtain ⟨ha, hb, hc⟩ := hspec.2.mp hex2
      refine ⟨by simpa [dfgTrace] using ha, by simp [dfgTrace, hb], ?_⟩
      simpa [dfgTrace, dfgIntent] using hc
    · rintro ⟨ha, hb, hc⟩
      have hb2 :
          (dfgCheck env (reorder_matches q (handleMatches env (uid.getD "default_user") ss))).1 = "" := by
        simp only [dfgTrace] at hb
        simpa using hb
      have hc2 :
          (decide_rag_intent
            (dfgCheck env (reorder_matches q (handleMatches env (uid.getD "default_user") ss))).1
            (reorder_matches q (handleMatches env (uid.getD "default_user") ss)).length
            q env.classifyResp).1 = RagIntent.GENERAL_INFO := by
        simpa [dfgTrace, dfgIntent] using hc
      have ha2 :
          (reorder_matches q (handleMatches env (uid.getD "default_user") ss)).length = 1 := by
        simpa [dfgTrace] using ha
      have := hspec.2.mpr ⟨ha2, hb2, hc2⟩
      simpa [dfgTrace, dfgIntent] using this

/-- Concrete instantiation of the exclusion policy claim. -/
theorem exclude_interactions_policy_witness :
    (handle_chat_query (sampleEnv [drugAb, drugCd] (Except.ok "answer")) "x" none []).drugFlow =
      some { numMatches := 2, directFound := true, ragIntent := RagIntent.INTERACTION,
             excludeInteractions := false } ∧
    ({ numMatches := 2, directFound := true, ragIntent := RagIntent.INTERACTION,
       excludeInteractions := false } : DrugFlowTrace).excludeInteractions = false := by
  have hdf : (handle_chat_query (sampleEnv [drugAb, drugCd] (Except.ok "answer")) "x" none []).drugFlow =
      some { numMatches := 2, directFound := true, ragIntent := RagIntent.INTERACTION,
             excludeInteractions := false } := by decide
  refine ⟨hdf, ?_⟩
  exact (exclude_interactions_policy (sampleEnv [drugAb, drugCd] (Except.ok "answer"))
    "x" none [] _ hdf).1 (Or.inl rfl)

/-- C2: when a direct structured interaction finding exists, the final
prompt carries an empty history field even if prior turns exist, while
a successful generator call still appends the real turn to the stored
session history. -/
theorem history_isolation (env : Env) (q : String) (uid : Option String) (ss : Sessions)
    (t : DrugFlowTrace)
    (hdf : (handle_chat_query env q uid ss).drugFlow = some t)
    (hfound : t.directFound = true) :
    (∃ p : RagPrompt, (handle_chat_query env q uid ss).finalPrompt = some p ∧ p.history = "") ∧
    (∀ resp : String, env.finalResp = Except.ok resp →
      sessionTurns (handle_chat_query env q uid ss).sessions (uid.getD "default_user") =
        some (((sessionTurns ss (uid.getD "default_user")).getD []) ++
          [("User: " ++ q, "AI: " ++ pyTrim resp)])) := by
  obtain ⟨hmm, hid, heq, ht⟩ := handle_drugFlow_cases env q uid ss t hdf
  subst ht
  have hdc : (dfgCheck env (reorder_matches q (handleMatches env (uid.getD "default_user") ss))).1 ≠ "" := by
    simp only [dfgTrace] at hfound
    simpa using hfound
  have hctx : (dfgCheck env (reorder_matches q (handleMatches env (uid.getD "default_user") ss))).1 ++
      (dfgRag env q (reorder_matches q (handleMatches env (uid.getD "default_user") ss))).1 ≠ "" := by
    intro h
    exact hdc ((str_append_eq_empty _ _).mp h).1
  cases hfr : env.finalResp with
  | ok resp =>
    have hb := dfg_eq_ok env q (uid.getD "default_user")
      (ensureSession ss (uid.getD "default_user"))
      (handleHistory env (uid.getD "default_user") ss)
      (reorder_matches q (handleMatches env (uid.getD "default_user") ss)) resp hctx hfr
    rw [heq, hb]
    constructor
    · refine ⟨_, rfl, ?_⟩
      simp [hdc]
    · intro r hr
      obtain rfl : resp = r := by injection hr
      dsimp only
      rw [sessionTurns_save, sessionTurns_ensure]
      simp
  | error e =>
    cases e
    have hb := dfg_eq_err env q (uid.getD "default_user")
      (ensureSession ss (uid.getD "default_user"))
      (handleHistory env (uid.getD "default_user") ss)
      (reorder_matches q (handleMatches env (uid.getD "default_user") ss)) hctx hfr
    rw [heq, hb]
    constructor
    · refine ⟨_, rfl, ?_⟩
      simp [hdc]
    · intro r hr
      simp at hr

/-- Concrete instantiation of the history isolation claim, with one prior
turn in the session. -/
theorem history_isolation_witness :
    (∃ p : RagPrompt,
      (handle_chat_query (sampleEnv [drugAb, drugCd] (Except.ok "answer")) "x" none
        [("default_user", [("User: hi", "AI: ho")])]).finalPrompt = some p ∧ p.history = "") ∧
    sessionTurns (handle_chat_query (sampleEnv [drugAb, drugCd] (Except.ok "answer")) "x" none
        [("default_user", [("User: hi", "AI: ho")])]).sessions "default_user" =
      some [("User: hi", "AI: ho"), ("User: x", "AI: answer")] := by
  have hdf : (handle_chat_query (sampleEnv [drugAb, drugCd] (Except.ok "answer")) "x" none
      [("default_user", [("User: hi", "AI: ho")])]).drugFlow =
      some { numMatches := 2, directFound := true, ragIntent := RagIntent.INTERACTION,
             excludeInteractions := false } := by decide
  have h := history_isolation (sampleEnv [drugAb, drugCd] (Except.ok "answer")) "x" none
    [("default_user", [("User: hi", "AI: ho")])] _ hdf rfl
  exact ⟨h.1, h.2 "answer" rfl⟩

/-- C7: a drug-flow request that produces neither a structured finding
nor any retrieved passages returns the fixed no-information response
with success status, never invokes the final generator, and leaves the
stored turns unchanged. -/
theorem no_grounding_terminal_spec (env : Env) (q : String) (uid : Option String)
    (ss : Sessions) (t : DrugFlowTrace)
    (hdf : (handle_chat_query env q uid ss).drugFlow = some t)
    (hnf : t.directFound = false)
    (hnd : (handle_chat_query env q uid ss).numDocsRetrieved = some 0) :
    (handle_chat_query env q uid ss).status = 200 ∧
    (handle_chat_query env q uid ss).finalGeneratorInvoked = false ∧
    (∃ ms : List DrugRecord, (handle_chat_query env q uid ss).resolved = some ms ∧
      (handle_chat_query env q uid ss).response = noInfoMsg (ms.headI.name.getD "N/A")) ∧
    sessionTurns (handle_chat_query env q uid ss).sessions (uid.getD "default_user") =
      some ((sessionTurns ss (uid.getD "default_user")).getD []) := by
  obtain ⟨hmm, hid, heq, ht⟩ := handle_drugFlow_cases env q uid ss t hdf
  subst ht
  have hdc : (dfgCheck env (reorder_matches q (handleMatches env (uid.getD "default_user") ss))).1 = "" := by
    simp only [dfgTrace] at hnf
    simpa using hnf
  have hnd2 : (dfgRag env q (reorder_matches q (handleMatches env (uid.getD "default_user") ss))).2.2 = 0 := by
    rw [heq, dfg_numDocs] at hnd
    exact Option.some.inj hnd
  have hragctx : (dfgRag env q (reorder_matches q (handleMatches env (uid.getD "default_user") ss))).1 = "" := by
    unfold dfgRag run_rag_targets at hnd2 ⊢
    exact runRagTargetsGo_zero _ _ _ [] hnd2
  have hctx : (dfgCheck env (reorder_matches q (handleMatches env (uid.getD "default_user") ss))).1 ++
      (dfgRag env q (reorder_matches q (handleMatches env (uid.getD "default_user") ss))).1 = "" := by
    rw [hdc, hragctx]
    rfl
  have hb := dfg_eq_noInfo env q (uid.getD "default_user")
    (ensureSession ss (uid.getD "default_user"))
    (handleHistory env (uid.getD "default_user") ss)
    (reorder_matches q (handleMatches env (uid.getD "default_user") ss)) hctx
  rw [heq, hb]
  refine ⟨rfl, rfl, ⟨reorder_matches q (handleMatches env (uid.getD "default_user") ss), rfl, rfl⟩, ?_⟩
  exact sessionTurns_ensure ss (uid.getD "default_user")

/-- Concrete instantiation of the no-grounding claim. -/
theorem no_grounding_terminal_spec_witness :
    (handle_chat_query (sampleEnv [drugEf] (Except.ok "answer")) "x" none []).status = 200 ∧
    (handle_chat_query (sampleEnv [drugEf] (Except.ok "answer")) "x" none []).finalGeneratorInvoked = false ∧
    (handle_chat_query (sampleEnv [drugEf] (Except.ok "answer")) "x" none []).response = noInfoMsg "ef" := by
  have hdf : (handle_chat_query (sampleEnv [drugEf] (Except.ok "answer")) "x" none []).drugFlow =
      some { numMatches := 1, directFound := false, ragIntent := RagIntent.GENERAL_INFO,
             excludeInteractions := true } := by decide
  have hnd : (handle_chat_query (sampleEnv [drugEf] (Except.ok "answer")) "x" none []).numDocsRetrieved =
      some 0 := by decide
  have h := no_grounding_terminal_spec (sampleEnv [drugEf] (Except.ok "answer")) "x" none [] _ hdf rfl hnd
  refine ⟨h.1, h.2.1, ?_⟩
  obtain ⟨ms, hres, hresp⟩ := h.2.2.1
  have hres2 : (handle_chat_query (sampleEnv [drugEf] (Except.ok "answer")) "x" none []).resolved =
      some [drugEf] := by decide
  rw [hres2] at hres
  obtain rfl : ms = [drugEf] := (Option.some.inj hres).symm
  exact hresp

/-- C8: on the profile, general-chat and grounded-answer paths, a failed
final generator call yields the fixed try-again response for that path
with internal-error status, and the stored turns of the session remain
those present before the call. -/
theorem generator_failure_spec (env : Env) (q : String) (uid : Option String) (ss : Sessions)
    (herr : env.finalResp = Except.error ()) :
    ((handle_chat_query env q uid ss).path = PathTag.profileQuery →
      (handle_chat_query env q uid ss).response = profileErrMsg ∧
      (handle_chat_query env q uid ss).status = 500 ∧
      (handle_chat_query env q uid ss).sessions = ensureSession ss (uid.getD "default_user")) ∧
    ((handle_chat_query env q uid ss).path = PathTag.generalChat →
      (handle_chat_query env q uid ss).response = generalErrMsg ∧
      (handle_chat_query env q uid ss).status = 500 ∧
      (handle_chat_query env q uid ss).sessions = ensureSession ss (uid.getD "default_user")) ∧
    ((handle_chat_query env q uid ss).path = PathTag.answered →
      (handle_chat_query env q uid ss).response = ragErrMsg ∧
      (handle_chat_query env q uid ss).status = 500 ∧
      (handle_chat_query env q uid ss).sessions = ensureSession ss (uid.getD "default_user")) := by
  rcases handle_branches env q uid ss with
    ⟨-, he⟩ | ⟨-, -, he⟩ | ⟨-, -, -, he⟩ | ⟨-, -, -, he⟩ | ⟨-, -, hmm, he⟩
  · rw [he]
    refine ⟨?_, ?_, ?_⟩ <;> (intro hp; simp at hp)
  · rw [he]
    refine ⟨?_, ?_, ?_⟩ <;> (intro hp; simp at hp)
  · rw [herr] at he
    rw [he]
    refine ⟨fun _ => ⟨rfl, rfl, rfl⟩, ?_, ?_⟩ <;> (intro hp; simp at hp)
  · rw [herr] at he
    rw [he]
    refine ⟨?_, fun _ => ⟨rfl, rfl, rfl⟩, ?_⟩ <;> (intro hp; simp at hp)
  · by_cases hid : (reorder_matches q (handleMatches env (uid.getD "default_user") ss)).headI.drugbank_id.getD "" = ""
    · rw [he, dfp_eq_noId _ _ _ _ _ _ hid]
      refine ⟨?_, ?_, ?_⟩ <;> (intro hp; simp at hp)
    · have heq := he.trans (dfp_eq_grounded _ _ _ _ _ _ hid)
      by_cases hctx : (dfgCheck env (reorder_matches q (handleMatches env (uid.getD "default_user") ss))).1 ++
          (dfgRag env q (reorder_matches q (handleMatches env (uid.getD "default_user") ss))).1 = ""
      · rw [heq, dfg_eq_noInfo env q (uid.getD "default_user")
          (ensureSession ss (uid.getD "default_user"))
          (handleHistory env (uid.getD "default_user") ss)
          (reorder_matches q (handleMatches env (uid.getD "default_user") ss)) hctx]
        refine ⟨?_, ?_, ?_⟩ <;> (intro hp; simp at hp)
      · rw [heq, dfg_eq_err env q (uid.getD "default_user")
          (ensureSession ss (uid.getD "default_user"))
          (handleHistory env (uid.getD "default_user") ss)
          (reorder_matches q (handleMatches env (uid.getD "default_user") ss)) hctx herr]
        refine ⟨?_, ?_, fun _ => ⟨rfl, rfl, rfl⟩⟩ <;> (intro hp; simp at hp)

/-- Concrete instantiation of the generator failure claim on the profile
path. -/
theorem generator_failure_spec_witness :
    (handle_chat_query (sampleEnv [] (Except.error ())) "what is my age" none []).response = profileErrMsg ∧
    (handle_chat_query (sampleEnv [] (Except.error ())) "what is my age" none []).status = 500 := by
  have h := generator_failure_spec (sampleEnv [] (Except.error ())) "what is my age" none [] rfl
  have hp : (handle_chat_query (sampleEnv [] (Except.error ())) "what is my age" none []).path =
      PathTag.profileQuery := by decide
  have h2 := h.1 hp
  exact ⟨h2.1, h2.2.1⟩

/-- C9: submitting the reset phrase twice in a row both times clears the
session of the user and both times returns the identical fixed
confirmation with success status; a reset with no existing session
leaves the store unchanged and still succeeds. -/
theorem reset_idempotent_spec (env : Env) (q : String) (uid : Option String) (ss : Sessions)
    (hok : env.componentsOk = true) (hq : pyTrim (pyLower q) = "reset history") :
    (handle_chat_query env q uid ss).response = resetMsg ∧
    (handle_chat_query env q uid ss).status = 200 ∧
    (handle_chat_query env q uid (handle_chat_query env q uid ss).sessions).response = resetMsg ∧
    (handle_chat_query env q uid (handle_chat_query env q uid ss).sessions).status = 200 ∧
    sessionTurns (handle_chat_query env q uid ss).sessions (uid.getD "default_user") = none ∧
    sessionTurns (handle_chat_query env q uid
      (handle_chat_query env q uid ss).sessions).sessions (uid.getD "default_user") = none ∧
    (sessionTurns ss (uid.getD "default_user") = none →
      (handle_chat_query env q uid ss).sessions = ss) := by
  have h1 := handle_eq_reset env q uid ss hok hq
  have h2 := handle_eq_reset env q uid (clearSession ss (uid.getD "default_user")) hok hq
  refine ⟨?_, ?_, ?_, ?_, ?_, ?_, ?_⟩
  · rw [h1]
  · rw [h1]
  · rw [h1]
    dsimp only
    rw [h2]
  · rw [h1]
    dsimp only
    rw [h2]
  · rw [h1]
    dsimp only
    exact sessionTurns_clear ss (uid.getD "default_user")
  · rw [h1]
    dsimp only
    rw [h2]
    dsimp only
    exact sessionTurns_clear (clearSession ss (uid.getD "default_user")) (uid.getD "default_user")
  · intro h
    rw [h1]
    dsimp only
    exact clearSession_absent ss (uid.getD "default_user") h

/-- Concrete instantiation of the reset idempotence claim. -/
theorem reset_idempotent_spec_witness :
    (handle_chat_query (sampleEnv [] (Except.ok "x")) "reset history" none
      [("default_user", [("User: hi", "AI: ho")])]).response = resetMsg ∧
    (handle_chat_query (sampleEnv [] (Except.ok "x")) "reset history" none
      [("default_user", [("User: hi", "AI: ho")])]).status = 200 ∧
    sessionTurns (handle_chat_query (sampleEnv [] (Except.ok "x")) "reset history" none
      [("default_user", [("User: hi", "AI: ho")])]).sessions "default_user" = none := by
  have h := reset_idempotent_spec (sampleEnv [] (Except.ok "x")) "reset history" none
    [("default_user", [("User: hi", "AI: ho")])] rfl (by decide)
  exact ⟨h.1, h.2.1, h.2.2.2.2.1⟩

/-- C10: when the primary resolved drug record lacks a truthy DrugBank
id, the request terminates with the fixed explanatory message and
success status, with no interaction check, no retrieval, no final
generator call, and no persisted turn. -/
theorem missing_id_terminal_spec (env : Env) (q : String) (uid : Option String) (ss : Sessions)
    (ms : List DrugRecord)
    (hres : (handle_chat_query env q uid ss).resolved = some ms)
    (hid : ms.headI.drugbank_id.getD "" = "") :
    handle_chat_query env q uid ss =
      { response := noIdMsg (ms.headI.name.getD "N/A"), status := 200,
        sessions := ensureSession ss (uid.getD "default_user"),
        path := PathTag.drugNoId, resolved := some ms } := by
  rcases handle_branches env q uid ss with
    ⟨-, he⟩ | ⟨-, -, he⟩ | ⟨-, -, -, he⟩ | ⟨-, -, -, he⟩ | ⟨-, -, hmm, he⟩
  · rw [he] at hres; simp at hres
  · rw [he] at hres; simp at hres
  · rw [he] at hres
    cases hfr : env.finalResp <;> rw [hfr] at hres <;> simp at hres
  · rw [he] at hres
    cases hfr : env.finalResp <;> rw [hfr] at hres <;> simp at hres
  · by_cases hid2 : (reorder_matches q (handleMatches env (uid.getD "default_user") ss)).headI.drugbank_id.getD "" = ""
    · have hb := dfp_eq_noId env q (uid.getD "default_user")
        (ensureSession ss (uid.getD "default_user"))
        (handleHistory env (uid.getD "default_user") ss)
        (handleMatches env (uid.getD "default_user") ss) hid2
      rw [he, hb] at hres
      simp only at hres
      obtain rfl : reorder_matches q (handleMatches env (uid.getD "default_user") ss) = ms :=
        Option.some.inj hres
      rw [he, hb]
    · have heq := he.trans (dfp_eq_grounded _ _ _ _ _ _ hid2)
      rw [heq, dfg_resolved] at hres
      obtain rfl : reorder_matches q (handleMatches env (uid.getD "default_user") ss) = ms :=
        Option.some.inj hres
      exact absurd hid hid2

/-- Concrete instantiation of the missing-id claim. -/
theorem missing_id_terminal_spec_witness :
    handle_chat_query (sampleEnv [drugNoId] (Except.ok "answer")) "x" none [] =
      { response := noIdMsg "gh", status := 200,
        sessions := [("default_user", [])],
        path := PathTag.drugNoId, resolved := some [drugNoId] } := by
  have hres : (handle_chat_query (sampleEnv [drugNoId] (Except.ok "answer")) "x" none []).resolved =
      some [drugNoId] := by decide
  have h := missing_id_terminal_spec (sampleEnv [drugNoId] (Except.ok "answer")) "x" none []
    [drugNoId] hres rfl
  rw [h]
  decide

end AroShield
